import Mathlib

/-!
Shallow embedding of `kbisect/deployment/deployer.py` (class `SlaveDeployer`).

The Python code talks to a remote host through an SSH client and `rsync`
subprocesses, and inspects the local filesystem.  We model that environment
as a `World`:

* `fsExists` answers the local-filesystem existence checks (`Path.exists`);
* `ssh n` is the outcome of the `n`-th invocation of
  `ssh_client.run_command` during the run: `some (ret, stdout, stderr)`
  for a completed command, `none` when the call raises (which
  `_ssh_command` converts into `SSHError`);
* `rsync n` is the outcome of the `n`-th `subprocess.run` of rsync.

Execution state `St` records the trace of remote calls made so far: the
SSH command strings (with their timeouts) and the rsync invocations.  Each
Python method becomes a function `World → St → result × St`; a method that
can let an exception escape returns `Except DeployError _`.
-/

namespace KBisect

/-- `DeploymentError` subclasses raised by the deployer:
`SSHError` and `TransferError`. -/
inductive DeployError : Type
| sshError
| transferError
deriving DecidableEq, Repr

/-- Outcome of one `subprocess.run` of rsync: it completed with a return
code (and captured output), timed out (`subprocess.TimeoutExpired`), or
raised some other exception. -/
inductive RsyncOutcome : Type
| completed (returncode : Int) (stdout stderr : String)
| timedOut
| failed
deriving DecidableEq, Repr

/-- The external environment of one deployment run. -/
structure World : Type where
  fsExists : String → Bool
  ssh : Nat → Option (Int × String × String)
  rsync : Nat → RsyncOutcome

/-- Trace of the remote calls issued so far: SSH commands with their
timeouts, and rsync transfers as (local source, remote destination spec). -/
structure St : Type where
  sshCalls : List (String × Nat)
  rsyncCalls : List (String × String)
deriving DecidableEq, Repr

def St.empty : St := ⟨[], []⟩

/-- Result type of an operation that may let a `DeploymentError` escape. -/
abbrev ERes (α : Type) : Type := Except DeployError α

-- Constants from the top of deployer.py.
def DEFAULT_DEPLOY_PATH : String := "/root/kernel-bisect/lib"
def DEFAULT_STATE_DIR : String := "/var/lib/kernel-bisect"
def DEFAULT_SSH_TIMEOUT : Nat := 30

/-- Configuration of a `SlaveDeployer` instance (its constructor
arguments; `local_lib_path` after the constructor's defaulting logic). -/
structure SlaveDeployer : Type where
  slave_host : String
  slave_user : String
  deploy_path : String
  local_lib_path : String

/-- `os.path.dirname` (posixpath): everything up to the last "/", with
trailing slashes stripped unless the head is all slashes. -/
def posixDirname (p : String) : String :=
  let cs := p.toList
  let i := cs.length - (cs.reverse.takeWhile (fun c => c ≠ '/')).length
  let head := cs.take i
  if head.isEmpty || head.all (fun c => c = '/') then String.mk head
  else String.mk ((head.reverse.dropWhile (fun c => c = '/')).reverse)

/-- Characters `shlex.quote` leaves unquoted. -/
def shlexSafeChar (c : Char) : Bool :=
  c.isAlphanum || c = '_' || c = '@' || c = '%' || c = '+' || c = '=' ||
    c = ':' || c = ',' || c = '.' || c = '/' || c = '-'

/-- `shlex.quote`: return the string unchanged when it is non-empty and
made of safe characters, else wrap it in single quotes, escaping any
embedded single quote. -/
def shlexQuote (s : String) : String :=
  if s = "" then "\x27\x27"
  else if s.toList.all shlexSafeChar then s
  else "\x27" ++ s.replace "\x27" "\x27\"\x27\"\x27" ++ "\x27"

/-- Search for `needle` as a contiguous run at any position of `hay`. -/
def subSearch (needle : List Char) : List Char → Bool
  | [] => needle.isPrefixOf []
  | b :: bs => needle.isPrefixOf (b :: bs) || subSearch needle bs

/-- Python's `needle in hay` on strings: substring containment. -/
def pyContains (hay needle : String) : Bool :=
  subSearch needle.toList hay.toList

/-- `SlaveDeployer._ssh_command`: dispatch one command over SSH.  Any
exception from `run_command` is re-raised as `SSHError`. -/
def _ssh_command (w : World) (command : String) (timeout : Nat) (st : St) :
    ERes (Int × String × String) × St :=
  let st' : St := { st with sshCalls := st.sshCalls ++ [(command, timeout)] }
  match w.ssh st.sshCalls.length with
  | some r => (Except.ok r, st')
  | none => (Except.error DeployError.sshError, st')

/-- `SlaveDeployer._copy_to_slave`: create the remote parent directory,
then run rsync.  A non-zero mkdir or rsync exit returns `false`; an
`SSHError` from the mkdir is caught by the blanket `except Exception`
and re-raised as `TransferError`; an rsync timeout or dispatch failure
also raises `TransferError`. -/
def _copy_to_slave (d : SlaveDeployer) (w : World)
    (local_path remote_path : String) (st : St) : ERes Bool × St :=
  let remote_dir := posixDirname remote_path
  let r := _ssh_command w ("mkdir -p " ++ shlexQuote remote_dir)
    DEFAULT_SSH_TIMEOUT st
  match r.1 with
  | Except.error _ => (Except.error DeployError.transferError, r.2)
  | Except.ok (ret, _, _) =>
    if ret ≠ 0 then (Except.ok false, r.2)
    else
      let dest := d.slave_user ++ "@" ++ d.slave_host ++ ":" ++ remote_path
      let st2 : St :=
        { r.2 with rsyncCalls := r.2.rsyncCalls ++ [(local_path, dest)] }
      match w.rsync r.2.rsyncCalls.length with
      | RsyncOutcome.completed rc _ _ =>
        if rc = 0 then (Except.ok true, st2) else (Except.ok false, st2)
      | RsyncOutcome.timedOut => (Except.error DeployError.transferError, st2)
      | RsyncOutcome.failed => (Except.error DeployError.transferError, st2)

/-- `SlaveDeployer.check_connectivity`: run `echo test` with a 300s
timeout; true iff the command completed with exit code 0 and "test"
occurs in its stdout; an `SSHError` is caught and yields false. -/
def check_connectivity (w : World) (st : St) : Bool × St :=
  let r := _ssh_command w "echo test" 300 st
  match r.1 with
  | Except.error _ => (false, r.2)
  | Except.ok (ret, stdout, _) =>
    if ret = 0 && pyContains stdout "test" then (true, r.2) else (false, r.2)

/-- The fixed directory list of `create_directories`. -/
def requiredDirectories (d : SlaveDeployer) : List String :=
  [d.deploy_path, DEFAULT_STATE_DIR, "/var/log"]

/-- The loop body of `create_directories`: `mkdir -p` each directory in
order, stopping at the first `SSHError` or non-zero exit. -/
def createDirsLoop (w : World) (dirs : List String) (st : St) : Bool × St :=
  match dirs with
  | [] => (true, st)
  | dir :: rest =>
    let r := _ssh_command w ("mkdir -p " ++ dir) DEFAULT_SSH_TIMEOUT st
    match r.1 with
    | Except.error _ => (false, r.2)
    | Except.ok (ret, _, _) =>
      if ret ≠ 0 then (false, r.2) else createDirsLoop w rest r.2

/-- `SlaveDeployer.create_directories`. -/
def create_directories (d : SlaveDeployer) (w : World) (st : St) : Bool × St :=
  createDirsLoop w (requiredDirectories d) st

/-- `SlaveDeployer.deploy_library`: check the local artifact, ensure the
remote directory, copy the library, then best-effort chmod.  The local
checks and a mkdir failure return false with no further calls; a
`TransferError` from the copy is caught (false); a chmod failure of
either kind is non-fatal (still true). -/
def deploy_library (d : SlaveDeployer) (w : World) (st : St) : ERes Bool × St :=
  if !(w.fsExists d.local_lib_path) then (Except.ok false, st)
  else
    let library_file := d.local_lib_path ++ "/bisect-functions.sh"
    if !(w.fsExists library_file) then (Except.ok false, st)
    else
      let r := _ssh_command w ("mkdir -p " ++ d.deploy_path)
        DEFAULT_SSH_TIMEOUT st
      match r.1 with
      | Except.error _ => (Except.ok false, r.2)
      | Except.ok (ret, _, _) =>
        if ret ≠ 0 then (Except.ok false, r.2)
        else
          let c := _copy_to_slave d w library_file
            (d.deploy_path ++ "/bisect-functions.sh") r.2
          match c.1 with
          | Except.error DeployError.transferError => (Except.ok false, c.2)
          | Except.error DeployError.sshError =>
            (Except.error DeployError.sshError, c.2)
          | Except.ok false => (Except.ok false, c.2)
          | Except.ok true =>
            let h := _ssh_command w
              ("chmod +x " ++ d.deploy_path ++ "/bisect-functions.sh")
              DEFAULT_SSH_TIMEOUT c.2
            match h.1 with
            | Except.error _ => (Except.ok true, h.2)
            | Except.ok _ => (Except.ok true, h.2)

/-- `SlaveDeployer.initialize_protection`: source the deployed library and
invoke `init_protection`, with a 60s timeout; false on `SSHError` or a
non-zero exit. -/
def initialize_protection (d : SlaveDeployer) (w : World) (st : St) : Bool × St :=
  let init_command :=
    "source " ++ d.deploy_path ++ "/bisect-functions.sh && init_protection"
  let r := _ssh_command w init_command 60 st
  match r.1 with
  | Except.error _ => (false, r.2)
  | Except.ok (ret, _, _) => if ret ≠ 0 then (false, r.2) else (true, r.2)

/-- One verification probe as `verify_deployment` runs it: the check's
command is dispatched, and the branch taken records a pass/fail message
and whether the flag survives.  Returns (message, passed). -/
def verifyCheck (w : World) (command okMsg failMsg errMsg : String) (st : St) :
    (String × Bool) × St :=
  let r := _ssh_command w command DEFAULT_SSH_TIMEOUT st
  match r.1 with
  | Except.error _ => ((errMsg, false), r.2)
  | Except.ok (ret, _, _) =>
    if ret = 0 then ((okMsg, true), r.2) else ((failMsg, false), r.2)

/-- `SlaveDeployer.verify_deployment`: four independent probes, each
appending one message; `all_passed` starts true and each failing branch
clears it.  Returns ((all_passed, checks), trace). -/
def verify_deployment (d : SlaveDeployer) (w : World) (st : St) :
    (Bool × List String) × St :=
  let c1 := verifyCheck w ("test -d " ++ d.deploy_path)
    "✓ Library directory exists" "✗ Library directory missing"
    "✗ Library directory check failed" st
  let c2 := verifyCheck w ("test -x " ++ d.deploy_path ++ "/bisect-functions.sh")
    "✓ bisect-functions.sh executable" "✗ bisect-functions.sh not found"
    "✗ bisect-functions.sh check failed" c1.2
  let c3 := verifyCheck w ("test -f " ++ DEFAULT_STATE_DIR ++ "/protected-kernels.list")
    "✓ Kernel protection initialized" "✗ Kernel protection not initialized"
    "✗ Kernel protection check failed" c2.2
  let c4 := verifyCheck w ("test -d " ++ DEFAULT_STATE_DIR)
    "✓ State directory exists" "✗ State directory missing"
    "✗ State directory check failed" c3.2
  let all_passed := c1.1.2 && c2.1.2 && c3.1.2 && c4.1.2
  ((all_passed, [c1.1.1, c2.1.1, c3.1.1, c4.1.1]), c4.2)

/-- `SlaveDeployer.deploy_full`: the five steps in order with early
return on the first failure; success requires the final verification's
`all_passed`. -/
def deploy_full (d : SlaveDeployer) (w : World) (st : St) : ERes Bool × St :=
  let r1 := check_connectivity w st
  if !r1.1 then (Except.ok false, r1.2)
  else
    let r2 := create_directories d w r1.2
    if !r2.1 then (Except.ok false, r2.2)
    else
      let r3 := deploy_library d w r2.2
      match r3.1 with
      | Except.error e => (Except.error e, r3.2)
      | Except.ok b =>
        if !b then (Except.ok false, r3.2)
        else
          let r4 := initialize_protection d w r3.2
          if !r4.1 then (Except.ok false, r4.2)
          else
            let r5 := verify_deployment d w r4.2
            if r5.1.1 then (Except.ok true, r5.2) else (Except.ok false, r5.2)

/-- The three critical checks of `is_deployed`, in order. -/
def criticalChecks (d : SlaveDeployer) : List String :=
  ["test -d " ++ d.deploy_path,
   "test -x " ++ d.deploy_path ++ "/bisect-functions.sh",
   "test -f " ++ DEFAULT_STATE_DIR ++ "/protected-kernels.list"]

/-- The loop of `is_deployed`: run each check in order, returning false
on the first `SSHError` or non-zero exit. -/
def isDeployedLoop (w : World) (checks : List String) (st : St) : Bool × St :=
  match checks with
  | [] => (true, st)
  | c :: rest =>
    let r := _ssh_command w c DEFAULT_SSH_TIMEOUT st
    match r.1 with
    | Except.error _ => (false, r.2)
    | Except.ok (ret, _, _) =>
      if ret ≠ 0 then (false, r.2) else isDeployedLoop w rest r.2

/-- `SlaveDeployer.is_deployed`. -/
def is_deployed (d : SlaveDeployer) (w : World) (st : St) : Bool × St :=
  isDeployedLoop w (criticalChecks d) st

/-- `SlaveDeployer.update_library`: deploy_library alone. -/
def update_library (d : SlaveDeployer) (w : World) (st : St) : ERes Bool × St :=
  let r := deploy_library d w st
  match r.1 with
  | Except.error e => (Except.error e, r.2)
  | Except.ok b =>
    if !b then (Except.ok false, r.2) else (Except.ok true, r.2)

/-- Whether the `n`-th SSH command of the run completes with exit code 0
(a channel error or a non-zero exit both count as failure). -/
def probePass (w : World) (n : Nat) : Bool :=
  match w.ssh n with
  | some (ret, _, _) => ret == 0
  | none => false

/-! ## Helper lemmas -/

/-- Unfolding lemma for one verification probe: the message picks the
pass, fail or channel-error text, the flag is `probePass` at the current
call index, and exactly one command is appended to the trace. -/
theorem verifyCheck_unfold (w : World) (cmd okMsg failMsg errMsg : String)
    (st : St) :
    verifyCheck w cmd okMsg failMsg errMsg st =
      ((if probePass w st.sshCalls.length then okMsg
        else if (w.ssh st.sshCalls.length).isSome then failMsg else errMsg,
        probePass w st.sshCalls.length),
       { st with sshCalls := st.sshCalls ++ [(cmd, DEFAULT_SSH_TIMEOUT)] }) := by
  unfold verifyCheck _ssh_command probePass
  cases h : w.ssh st.sshCalls.length with
  | none => simp
  | some r =>
    obtain ⟨ret, o, e⟩ := r
    by_cases hr : ret = 0 <;> simp [hr]

/-- `_copy_to_slave` never lets an `SSHError` escape: the blanket
`except Exception` around its body converts the channel error into a
`TransferError`. -/
theorem copy_no_sshError (d : SlaveDeployer) (w : World)
    (lp rp : String) (st : St) :
    (_copy_to_slave d w lp rp st).1 ≠ Except.error DeployError.sshError := by
  unfold _copy_to_slave _ssh_command
  cases h : w.ssh st.sshCalls.length with
  | none => simp
  | some r =>
    obtain ⟨ret, o, e⟩ := r
    by_cases hr : ret ≠ 0
    · simp [hr]
    · cases hc : w.rsync st.rsyncCalls.length with
      | completed rc so se => by_cases hrc : rc = 0 <;> simp [hr, hc, hrc]
      | timedOut => simp [hr, hc]
      | failed => simp [hr, hc]

/-- `deploy_library` always returns a boolean: every `SSHError` and
`TransferError` on its paths is caught inside the method. -/
theorem deploy_library_ok (d : SlaveDeployer) (w : World) (st : St) :
    ∃ b, (deploy_library d w st).1 = Except.ok b := by
  by_cases h1 : w.fsExists d.local_lib_path
  case neg => exact ⟨false, by simp [deploy_library, h1]⟩
  by_cases h2 : w.fsExists (d.local_lib_path ++ "/bisect-functions.sh")
  case neg => exact ⟨false, by simp [deploy_library, h1, h2]⟩
  rcases hs : (_ssh_command w ("mkdir -p " ++ d.deploy_path)
      DEFAULT_SSH_TIMEOUT st).1 with e | ⟨ret, o, er⟩
  · exact ⟨false, by simp [deploy_library, h1, h2, hs]⟩
  · by_cases hr : ret = 0
    case neg => exact ⟨false, by simp [deploy_library, h1, h2, hs, hr]⟩
    subst hr
    rcases hc : (_copy_to_slave d w (d.local_lib_path ++ "/bisect-functions.sh")
        (d.deploy_path ++ "/bisect-functions.sh")
        (_ssh_command w ("mkdir -p " ++ d.deploy_path)
          DEFAULT_SSH_TIMEOUT st).2).1 with e2 | b
    · cases e2 with
      | sshError => exact absurd hc (copy_no_sshError _ _ _ _ _)
      | transferError => exact ⟨false, by simp [deploy_library, h1, h2, hs, hc]⟩
    · cases b with
      | false => exact ⟨false, by simp [deploy_library, h1, h2, hs, hc]⟩
      | true =>
        rcases hm : (_ssh_command w
            ("chmod +x " ++ d.deploy_path ++ "/bisect-functions.sh")
            DEFAULT_SSH_TIMEOUT
            (_copy_to_slave d w (d.local_lib_path ++ "/bisect-functions.sh")
              (d.deploy_path ++ "/bisect-functions.sh")
              (_ssh_command w ("mkdir -p " ++ d.deploy_path)
                DEFAULT_SSH_TIMEOUT st).2).2).1 with e3 | r3
        · exact ⟨true, by simp [deploy_library, h1, h2, hs, hc, hm]⟩
        · exact ⟨true, by simp [deploy_library, h1, h2, hs, hc, hm]⟩

/-! ## Claim theorems -/

/-- C4: `check_connectivity` returns true iff the echo probe completes
with exit code 0 and the literal token "test" occurs in its stdout; so
an exit-0 probe whose stdout lacks the token yields false, and a channel
error during the probe yields false. -/
theorem check_connectivity_iff (w : World) (st : St) :
    (check_connectivity w st).1 = true ↔
      ∃ stdout stderr, w.ssh st.sshCalls.length = some (0, stdout, stderr) ∧
        pyContains stdout "test" = true := by
  unfold check_connectivity _ssh_command
  cases h : w.ssh st.sshCalls.length with
  | none => simp
  | some r =>
    obtain ⟨ret, stdout, stderr⟩ := r
    by_cases hr : ret = 0
    · subst hr
      by_cases hp : pyContains stdout "test" = true <;> simp [hp]
    · simp [hr]

/-- C3: `verify_deployment` always dispatches all four probe commands
(no short-circuit: the trace grows by exactly those four, in order, even
when an earlier probe fails), always returns exactly four check entries,
and its overall flag equals the conjunction of the four probe outcomes. -/
theorem verify_deployment_complete (d : SlaveDeployer) (w : World) (st : St) :
    (verify_deployment d w st).1.2.length = 4 ∧
    (verify_deployment d w st).2.sshCalls =
      st.sshCalls ++
        [("test -d " ++ d.deploy_path, DEFAULT_SSH_TIMEOUT),
         ("test -x " ++ d.deploy_path ++ "/bisect-functions.sh",
           DEFAULT_SSH_TIMEOUT),
         ("test -f " ++ DEFAULT_STATE_DIR ++ "/protected-kernels.list",
           DEFAULT_SSH_TIMEOUT),
         ("test -d " ++ DEFAULT_STATE_DIR, DEFAULT_SSH_TIMEOUT)] ∧
    (verify_deployment d w st).2.rsyncCalls = st.rsyncCalls ∧
    (verify_deployment d w st).1.1 =
      (probePass w st.sshCalls.length &&
       probePass w (st.sshCalls.length + 1) &&
       probePass w (st.sshCalls.length + 2) &&
       probePass w (st.sshCalls.length + 3)) := by
  unfold verify_deployment
  simp [verifyCheck_unfold]

/-- C1: `deploy_full` never proceeds past a failed step.  A false
`check_connectivity` ends the run with exactly the probe's trace; a
false `create_directories` ends it with no library, protection or
verification activity; a false `deploy_library` or a false
`initialize_protection` likewise abort, the final state being exactly
the failing step's state (so no later remote call is ever issued). -/
theorem deploy_full_fail_fast (d : SlaveDeployer) (w : World) (st : St) :
    ((check_connectivity w st).1 = false →
      deploy_full d w st = (Except.ok false, (check_connectivity w st).2)) ∧
    ((check_connectivity w st).1 = true →
     (create_directories d w (check_connectivity w st).2).1 = false →
      deploy_full d w st =
        (Except.ok false,
         (create_directories d w (check_connectivity w st).2).2)) ∧
    ((check_connectivity w st).1 = true →
     (create_directories d w (check_connectivity w st).2).1 = true →
     (deploy_library d w
         (create_directories d w (check_connectivity w st).2).2).1 =
       Except.ok false →
      deploy_full d w st =
        (Except.ok false,
         (deploy_library d w
           (create_directories d w (check_connectivity w st).2).2).2)) ∧
    ((check_connectivity w st).1 = true →
     (create_directories d w (check_connectivity w st).2).1 = true →
     (deploy_library d w
         (create_directories d w (check_connectivity w st).2).2).1 =
       Except.ok true →
     (initialize_protection d w
         (deploy_library d w
           (create_directories d w (check_connectivity w st).2).2).2).1 =
       false →
      deploy_full d w st =
        (Except.ok false,
         (initialize_protection d w
           (deploy_library d w
             (create_directories d w (check_connectivity w st).2).2).2).2)) := by
  refine ⟨fun h1 => ?_, fun h1 h2 => ?_, fun h1 h2 h3 => ?_,
    fun h1 h2 h3 h4 => ?_⟩
  · simp [deploy_full, h1]
  · simp [deploy_full, h1, h2]
  · simp [deploy_full, h1, h2, h3]
  · simp [deploy_full, h1, h2, h3, h4]

/-- C1 witness: with an unreachable host (every channel call errors),
the connectivity probe fails and `deploy_full` stops right there, the
trace holding the probe alone. -/
theorem deploy_full_fail_fast_witness :
    (check_connectivity
        ⟨fun _ => true, fun _ => none, fun _ => RsyncOutcome.failed⟩
        St.empty).1 = false ∧
    deploy_full ⟨"slave1", "root", DEFAULT_DEPLOY_PATH, "/src/kbisect/lib"⟩
        ⟨fun _ => true, fun _ => none, fun _ => RsyncOutcome.failed⟩
        St.empty =
      (Except.ok false,
       (check_connectivity
         ⟨fun _ => true, fun _ => none, fun _ => RsyncOutcome.failed⟩
         St.empty).2) :=
  ⟨rfl,
   (deploy_full_fail_fast
     ⟨"slave1", "root", DEFAULT_DEPLOY_PATH, "/src/kbisect/lib"⟩
     ⟨fun _ => true, fun _ => none, fun _ => RsyncOutcome.failed⟩
     St.empty).1 rfl⟩

/-- C2: `deploy_full` returns true exactly when connectivity, directory
creation, library deployment and protection initialization each succeed
and the final verification reports all checks passed; in particular a
true result forces the report's overall flag to be true. -/
theorem deploy_full_success_iff (d : SlaveDeployer) (w : World) (st : St) :
    (deploy_full d w st).1 = Except.ok true ↔
      ((check_connectivity w st).1 = true ∧
       (create_directories d w (check_connectivity w st).2).1 = true ∧
       (deploy_library d w
           (create_directories d w (check_connectivity w st).2).2).1 =
         Except.ok true ∧
       (initialize_protection d w
           (deploy_library d w
             (create_directories d w (check_connectivity w st).2).2).2).1 =
         true ∧
       (verify_deployment d w
           (initialize_protection d w
             (deploy_library d w
               (create_directories d w
                 (check_connectivity w st).2).2).2).2).1.1 = true) := by
  cases h1 : (check_connectivity w st).1 with
  | false => simp [deploy_full, h1]
  | true =>
    cases h2 : (create_directories d w (check_connectivity w st).2).1 with
    | false => simp [deploy_full, h1, h2]
    | true =>
      rcases h3 : (deploy_library d w
          (create_directories d w (check_connectivity w st).2).2).1 with e | b
      · simp [deploy_full, h1, h2, h3]
      · cases b with
        | false => simp [deploy_full, h1, h2, h3]
        | true =>
          cases h4 : (initialize_protection d w
              (deploy_library d w
                (create_directories d w
                  (check_connectivity w st).2).2).2).1 with
          | false => simp [deploy_full, h1, h2, h3, h4]
          | true =>
            cases h5 : (verify_deployment d w
                (initialize_protection d w
                  (deploy_library d w
                    (create_directories d w
                      (check_connectivity w st).2).2).2).2).1.1 with
            | false => simp [deploy_full, h1, h2, h3, h4, h5]
            | true => simp [deploy_full, h1, h2, h3, h4, h5]

/-- C5: when the local artifact is absent (the library directory or the
library file inside it does not exist), `deploy_library` returns false
with the trace unchanged: no SSH command is dispatched, no transfer is
attempted, and no channel or transfer error is raised. -/
theorem deploy_library_local_absent (d : SlaveDeployer) (w : World) (st : St)
    (h : w.fsExists d.local_lib_path = false ∨
         w.fsExists (d.local_lib_path ++ "/bisect-functions.sh") = false) :
    deploy_library d w st = (Except.ok false, st) := by
  rcases h with h | h
  · simp [deploy_library, h]
  · cases h0 : w.fsExists d.local_lib_path <;> simp [deploy_library, h, h0]

/-- C5 witness: a deployer whose local library root does not exist
returns false with an empty trace, on a world where every remote call
would error. -/
theorem deploy_library_local_absent_witness :
    (World.mk (fun _ => false) (fun _ => none)
        (fun _ => RsyncOutcome.failed)).fsExists "/src/kbisect/lib" = false ∧
    deploy_library ⟨"slave1", "root", DEFAULT_DEPLOY_PATH, "/src/kbisect/lib"⟩
        ⟨fun _ => false, fun _ => none, fun _ => RsyncOutcome.failed⟩
        St.empty =
      (Except.ok false, St.empty) :=
  ⟨rfl,
   deploy_library_local_absent
     ⟨"slave1", "root", DEFAULT_DEPLOY_PATH, "/src/kbisect/lib"⟩
     ⟨fun _ => false, fun _ => none, fun _ => RsyncOutcome.failed⟩
     St.empty (Or.inl rfl)⟩

/-- C6: in any `deploy_library` run whose local checks, remote mkdirs
and rsync transfer all succeed, a failing chmod — a channel error while
dispatching it (h6 left) or a non-zero chmod exit (h6 right) — still
leaves `deploy_library` returning true. -/
theorem deploy_library_chmod_nonfatal (d : SlaveDeployer) (w : World) (st : St)
    (h1 : w.fsExists d.local_lib_path = true)
    (h2 : w.fsExists (d.local_lib_path ++ "/bisect-functions.sh") = true)
    (h3 : ∃ o e, w.ssh st.sshCalls.length = some (0, o, e))
    (h4 : ∃ o e, w.ssh (st.sshCalls.length + 1) = some (0, o, e))
    (h5 : ∃ o e, w.rsync st.rsyncCalls.length = RsyncOutcome.completed 0 o e)
    (h6 : w.ssh (st.sshCalls.length + 2) = none ∨
          ∃ r o e, w.ssh (st.sshCalls.length + 2) = some (r, o, e) ∧ r ≠ 0) :
    (deploy_library d w st).1 = Except.ok true := by
  obtain ⟨o3, e3, h3⟩ := h3
  obtain ⟨o4, e4, h4⟩ := h4
  obtain ⟨o5, e5, h5⟩ := h5
  unfold deploy_library _copy_to_slave _ssh_command
  rcases h6 with h6 | ⟨r6, o6, e6, h6, hr6⟩
  · simp [h1, h2, h3, h4, h5, h6]
  · simp [h1, h2, h3, h4, h5, h6]

/-- C6 witness: a run where everything succeeds except the chmod, which
exits 1, still deploys: the library step returns true. -/
theorem deploy_library_chmod_nonfatal_witness :
    (∃ r o e,
      (World.mk (fun _ => true)
          (fun n => if n == 2 then some (1, "", "") else some (0, "test", ""))
          (fun _ => RsyncOutcome.completed 0 "" "")).ssh 2 = some (r, o, e) ∧
        r ≠ 0) ∧
    (deploy_library ⟨"slave1", "root", DEFAULT_DEPLOY_PATH, "/src/kbisect/lib"⟩
        ⟨fun _ => true,
         fun n => if n == 2 then some (1, "", "") else some (0, "test", ""),
         fun _ => RsyncOutcome.completed 0 "" ""⟩
        St.empty).1 = Except.ok true :=
  ⟨⟨1, "", "", rfl, by decide⟩,
   deploy_library_chmod_nonfatal
     ⟨"slave1", "root", DEFAULT_DEPLOY_PATH, "/src/kbisect/lib"⟩
     ⟨fun _ => true,
      fun n => if n == 2 then some (1, "", "") else some (0, "test", ""),
      fun _ => RsyncOutcome.completed 0 "" ""⟩
     St.empty rfl rfl ⟨"test", "", rfl⟩ ⟨"test", "", rfl⟩ ⟨"", "", rfl⟩
     (Or.inr ⟨1, "", "", rfl, by decide⟩)⟩

/-- Unfolding lemma for one `is_deployed` check: the command is
appended to the trace, and the loop continues only when the probe
completes with exit code 0. -/
theorem isDeployedLoop_cons (w : World) (c : String) (rest : List String)
    (st : St) :
    isDeployedLoop w (c :: rest) st =
      if probePass w st.sshCalls.length then
        isDeployedLoop w rest
          { st with sshCalls := st.sshCalls ++ [(c, DEFAULT_SSH_TIMEOUT)] }
      else
        (false,
         { st with sshCalls := st.sshCalls ++ [(c, DEFAULT_SSH_TIMEOUT)] }) := by
  rw [isDeployedLoop]
  unfold _ssh_command probePass
  cases h : w.ssh st.sshCalls.length with
  | none => simp
  | some r =>
    obtain ⟨ret, o, e⟩ := r
    by_cases hr : ret = 0 <;> simp [hr]

/-- The empty check list of the `is_deployed` loop succeeds. -/
theorem isDeployedLoop_nil (w : World) (st : St) :
    isDeployedLoop w [] st = (true, st) := rfl

/-- C7: `is_deployed` runs exactly its three checks in order — deploy
directory, executable library, protection marker, with no state
directory probe — and stops at the first failing or erroring check: the
trace shows exactly the commands dispatched before the early false
return, and true requires all three to exit 0. -/
theorem is_deployed_fail_fast (d : SlaveDeployer) (w : World) (st : St) :
    (probePass w st.sshCalls.length = false →
      is_deployed d w st =
        (false,
         { st with sshCalls := st.sshCalls ++
             [("test -d " ++ d.deploy_path, DEFAULT_SSH_TIMEOUT)] })) ∧
    (probePass w st.sshCalls.length = true →
     probePass w (st.sshCalls.length + 1) = false →
      is_deployed d w st =
        (false,
         { st with sshCalls := st.sshCalls ++
             [("test -d " ++ d.deploy_path, DEFAULT_SSH_TIMEOUT),
              ("test -x " ++ d.deploy_path ++ "/bisect-functions.sh",
                DEFAULT_SSH_TIMEOUT)] })) ∧
    (probePass w st.sshCalls.length = true →
     probePass w (st.sshCalls.length + 1) = true →
     probePass w (st.sshCalls.length + 2) = false →
      is_deployed d w st =
        (false,
         { st with sshCalls := st.sshCalls ++
             [("test -d " ++ d.deploy_path, DEFAULT_SSH_TIMEOUT),
              ("test -x " ++ d.deploy_path ++ "/bisect-functions.sh",
                DEFAULT_SSH_TIMEOUT),
              ("test -f " ++ DEFAULT_STATE_DIR ++ "/protected-kernels.list",
                DEFAULT_SSH_TIMEOUT)] })) ∧
    (probePass w st.sshCalls.length = true →
     probePass w (st.sshCalls.length + 1) = true →
     probePass w (st.sshCalls.length + 2) = true →
      is_deployed d w st =
        (true,
         { st with sshCalls := st.sshCalls ++
             [("test -d " ++ d.deploy_path, DEFAULT_SSH_TIMEOUT),
              ("test -x " ++ d.deploy_path ++ "/bisect-functions.sh",
                DEFAULT_SSH_TIMEOUT),
              ("test -f " ++ DEFAULT_STATE_DIR ++ "/protected-kernels.list",
                DEFAULT_SSH_TIMEOUT)] })) := by
  refine ⟨fun p1 => ?_, fun p1 p2 => ?_, fun p1 p2 p3 => ?_,
    fun p1 p2 p3 => ?_⟩
  · simp [is_deployed, criticalChecks, isDeployedLoop_cons, p1]
  · simp [is_deployed, criticalChecks, isDeployedLoop_cons, p1, p2]
  · simp [is_deployed, criticalChecks, isDeployedLoop_cons, isDeployedLoop_nil,
      p1, p2, p3]
  · simp [is_deployed, criticalChecks, isDeployedLoop_cons, isDeployedLoop_nil,
      p1, p2, p3]

/-- C7 witness: with the first probe exiting 1, `is_deployed` is false
and only the deploy-directory check was dispatched. -/
theorem is_deployed_fail_fast_witness :
    probePass
      ⟨fun _ => true, fun _ => some (1, "", ""),
       fun _ => RsyncOutcome.failed⟩ 0 = false ∧
    is_deployed ⟨"slave1", "root", DEFAULT_DEPLOY_PATH, "/src/kbisect/lib"⟩
      ⟨fun _ => true, fun _ => some (1, "", ""),
       fun _ => RsyncOutcome.failed⟩ St.empty =
      (false,
       { St.empty with sshCalls :=
           St.empty.sshCalls ++
             [("test -d " ++ DEFAULT_DEPLOY_PATH, DEFAULT_SSH_TIMEOUT)] }) :=
  ⟨by decide,
   (is_deployed_fail_fast
     ⟨"slave1", "root", DEFAULT_DEPLOY_PATH, "/src/kbisect/lib"⟩
     ⟨fun _ => true, fun _ => some (1, "", ""),
      fun _ => RsyncOutcome.failed⟩ St.empty).1 (by decide)⟩

/-- C8: in `_copy_to_slave`, a non-zero exit of the remote mkdir returns
false with no rsync attempted (the transfer trace is unchanged); a
non-zero rsync exit returns false without raising; a `TransferError` is
raised exactly on a channel error while dispatching the mkdir or an
rsync timeout/dispatch failure; and a non-zero rsync exit during an
otherwise successful `deploy_library` run makes `deploy_library` return
false. -/
theorem copy_error_semantics (d : SlaveDeployer) (w : World)
    (lp rp : String) (st : St) :
    ((∃ r o e, w.ssh st.sshCalls.length = some (r, o, e) ∧ r ≠ 0) →
      _copy_to_slave d w lp rp st =
        (Except.ok false,
         { st with sshCalls := st.sshCalls ++
             [("mkdir -p " ++ shlexQuote (posixDirname rp),
               DEFAULT_SSH_TIMEOUT)] })) ∧
    ((∃ o e, w.ssh st.sshCalls.length = some (0, o, e)) →
     (∃ rc o e, w.rsync st.rsyncCalls.length = RsyncOutcome.completed rc o e ∧
        rc ≠ 0) →
      (_copy_to_slave d w lp rp st).1 = Except.ok false) ∧
    (∀ e, (_copy_to_slave d w lp rp st).1 = Except.error e →
      e = DeployError.transferError ∧
        (w.ssh st.sshCalls.length = none ∨
         ((∃ o e2, w.ssh st.sshCalls.length = some (0, o, e2)) ∧
          (w.rsync st.rsyncCalls.length = RsyncOutcome.timedOut ∨
           w.rsync st.rsyncCalls.length = RsyncOutcome.failed)))) ∧
    (w.fsExists d.local_lib_path = true →
     w.fsExists (d.local_lib_path ++ "/bisect-functions.sh") = true →
     (∃ o e, w.ssh st.sshCalls.length = some (0, o, e)) →
     (∃ o e, w.ssh (st.sshCalls.length + 1) = some (0, o, e)) →
     (∃ rc o e, w.rsync st.rsyncCalls.length = RsyncOutcome.completed rc o e ∧
        rc ≠ 0) →
      (deploy_library d w st).1 = Except.ok false) := by
  refine ⟨fun h => ?_, fun hm hc => ?_, fun e he => ?_,
    fun h1 h2 h3 h4 h5 => ?_⟩
  · obtain ⟨r, o, e, h, hr⟩ := h
    simp [_copy_to_slave, _ssh_command, h, hr]
  · obtain ⟨o, e, hm⟩ := hm
    obtain ⟨rc, ro, re, hc, hrc⟩ := hc
    simp [_copy_to_slave, _ssh_command, hm, hc, hrc]
  · cases h : w.ssh st.sshCalls.length with
    | none =>
      simp [_copy_to_slave, _ssh_command, h] at he
      exact ⟨he.symm, Or.inl rfl⟩
    | some r =>
      obtain ⟨ret, o, e2⟩ := r
      by_cases hr : ret = 0
      · subst hr
        cases hc : w.rsync st.rsyncCalls.length with
        | completed rc so se =>
          by_cases hrc : rc = 0 <;> simp [_copy_to_slave, _ssh_command,
            h, hc, hrc] at he
        | timedOut =>
          simp [_copy_to_slave, _ssh_command, h, hc] at he
          exact ⟨he.symm, Or.inr ⟨⟨o, e2, rfl⟩, Or.inl rfl⟩⟩
        | failed =>
          simp [_copy_to_slave, _ssh_command, h, hc] at he
          exact ⟨he.symm, Or.inr ⟨⟨o, e2, rfl⟩, Or.inr rfl⟩⟩
      · simp [_copy_to_slave, _ssh_command, h, hr] at he
  · obtain ⟨o3, e3, h3⟩ := h3
    obtain ⟨o4, e4, h4⟩ := h4
    obtain ⟨rc, ro, re, h5, hrc⟩ := h5
    unfold deploy_library _copy_to_slave _ssh_command
    simp [h1, h2, h3, h4, h5, hrc]

/-- C8 witness: with the remote mkdir of the copy exiting 1, the copy
returns false and the transfer trace stays empty. -/
theorem copy_error_semantics_witness :
    (∃ r o e,
      (World.mk (fun _ => true) (fun _ => some (1, "", ""))
          (fun _ => RsyncOutcome.completed 0 "" "")).ssh 0 =
        some (r, o, e) ∧ r ≠ 0) ∧
    _copy_to_slave ⟨"slave1", "root", DEFAULT_DEPLOY_PATH, "/src/kbisect/lib"⟩
        ⟨fun _ => true, fun _ => some (1, "", ""),
         fun _ => RsyncOutcome.completed 0 "" ""⟩
        "/src/kbisect/lib/bisect-functions.sh"
        "/root/kernel-bisect/lib/bisect-functions.sh" St.empty =
      (Except.ok false,
       { St.empty with sshCalls := St.empty.sshCalls ++
           [("mkdir -p " ++
               shlexQuote (posixDirname "/root/kernel-bisect/lib/bisect-functions.sh"),
             DEFAULT_SSH_TIMEOUT)] }) :=
  ⟨⟨1, "", "", rfl, by decide⟩,
   (copy_error_semantics
     ⟨"slave1", "root", DEFAULT_DEPLOY_PATH, "/src/kbisect/lib"⟩
     ⟨fun _ => true, fun _ => some (1, "", ""),
      fun _ => RsyncOutcome.completed 0 "" ""⟩
     "/src/kbisect/lib/bisect-functions.sh"
     "/root/kernel-bisect/lib/bisect-functions.sh" St.empty).1
     ⟨1, "", "", rfl, by decide⟩⟩

/-- C9: no workflow operation lets a channel or transfer error escape.
`check_connectivity`, `create_directories`, `initialize_protection`,
`verify_deployment` and `is_deployed` return plain values by
construction (every `SSHError` branch of their bodies is caught and
mapped to a failure value), and the three operations whose translations
could propagate an exception — `deploy_library`, `deploy_full`,
`update_library` — always return `Except.ok`. -/
theorem workflow_no_error_escape (d : SlaveDeployer) (w : World) (st : St) :
    (∃ b, (deploy_library d w st).1 = Except.ok b) ∧
    (∃ b, (deploy_full d w st).1 = Except.ok b) ∧
    (∃ b, (update_library d w st).1 = Except.ok b) := by
  refine ⟨deploy_library_ok d w st, ?_, ?_⟩
  · cases h1 : (check_connectivity w st).1 with
    | false => exact ⟨false, by simp [deploy_full, h1]⟩
    | true =>
      cases h2 : (create_directories d w (check_connectivity w st).2).1 with
      | false => exact ⟨false, by simp [deploy_full, h1, h2]⟩
      | true =>
        obtain ⟨b, hb⟩ := deploy_library_ok d w
          (create_directories d w (check_connectivity w st).2).2
        cases b with
        | false => exact ⟨false, by simp [deploy_full, h1, h2, hb]⟩
        | true =>
          cases h4 : (initialize_protection d w
              (deploy_library d w
                (create_directories d w
                  (check_connectivity w st).2).2).2).1 with
          | false => exact ⟨false, by simp [deploy_full, h1, h2, hb, h4]⟩
          | true =>
            cases h5 : (verify_deployment d w
                (initialize_protection d w
                  (deploy_library d w
                    (create_directories d w
                      (check_connectivity w st).2).2).2).2).1.1 with
            | false =>
              exact ⟨false, by simp [deploy_full, h1, h2, hb, h4, h5]⟩
            | true =>
              exact ⟨true, by simp [deploy_full, h1, h2, hb, h4, h5]⟩
  · obtain ⟨b, hb⟩ := deploy_library_ok d w st
    cases b with
    | false => exact ⟨false, by simp [update_library, hb]⟩
    | true => exact ⟨true, by simp [update_library, hb]⟩

/-- C10: a channel error (`SSHError`) raised while dispatching the
remote directory creation inside `_copy_to_slave` is re-raised as a
`TransferError`; callers of the copy never observe an `SSHError`. -/
theorem copy_channel_error_to_transfer (d : SlaveDeployer) (w : World)
    (lp rp : String) (st : St) :
    (w.ssh st.sshCalls.length = none →
      _copy_to_slave d w lp rp st =
        (Except.error DeployError.transferError,
         { st with sshCalls := st.sshCalls ++
             [("mkdir -p " ++ shlexQuote (posixDirname rp),
               DEFAULT_SSH_TIMEOUT)] })) ∧
    (_copy_to_slave d w lp rp st).1 ≠ Except.error DeployError.sshError := by
  refine ⟨fun h => ?_, copy_no_sshError d w lp rp st⟩
  simp [_copy_to_slave, _ssh_command, h]

/-- C10 witness: on a world where the channel always errors, the copy's
result is a `TransferError`, not an `SSHError`. -/
theorem copy_channel_error_to_transfer_witness :
    (World.mk (fun _ => true) (fun _ => none)
        (fun _ => RsyncOutcome.failed)).ssh 0 = none ∧
    _copy_to_slave ⟨"slave1", "root", DEFAULT_DEPLOY_PATH, "/src/kbisect/lib"⟩
        ⟨fun _ => true, fun _ => none, fun _ => RsyncOutcome.failed⟩
        "/src/kbisect/lib/bisect-functions.sh"
        "/root/kernel-bisect/lib/bisect-functions.sh" St.empty =
      (Except.error DeployError.transferError,
       { St.empty with sshCalls := St.empty.sshCalls ++
           [("mkdir -p " ++
               shlexQuote (posixDirname "/root/kernel-bisect/lib/bisect-functions.sh"),
             DEFAULT_SSH_TIMEOUT)] }) :=
  ⟨rfl,
   (copy_channel_error_to_transfer
     ⟨"slave1", "root", DEFAULT_DEPLOY_PATH, "/src/kbisect/lib"⟩
     ⟨fun _ => true, fun _ => none, fun _ => RsyncOutcome.failed⟩
     "/src/kbisect/lib/bisect-functions.sh"
     "/root/kernel-bisect/lib/bisect-functions.sh" St.empty).1 rfl⟩

end KBisect
